import Mathlib

/-!
Shallow embedding of the FreeDAIY intake API (src/main.py) and verification of
its specification claims.

The program is a FastAPI app.  The pieces embedded here, each translated
directly from the Python source:

* the fallback storage adapter (`create_document` returning `"mock-id"` when the
  `database` module cannot be imported, main.py lines 8-15);
* the diagnostics endpoint `test_database` (GET /test, lines 35-63);
* the pydantic schemas `LeadCreate`, `LeadResponse`, `SubscribeCreate`,
  `SubscribeResponse` (lines 67-90) — pydantic's field validation is embedded
  as an explicit validation step run before the handler body, and the external
  `EmailStr` syntax check (the third-party email-validator collaborator, not
  code of this repository) is a parameter `emailOk : String → Bool`;
* the ingestion endpoints `create_lead` (POST /leads, lines 118-130) and
  `subscribe` (POST /subscribe, lines 133-144), instrumented with an explicit
  log of the `create_document` calls they issue;
* the constant catalog endpoints `list_posts`, `list_products`,
  `list_resources` (lines 147-225).

Python exceptions raised by the store are modelled with `Except String`, the
exception's `str()` being the payload.  Python string slicing `s[:n]` is
`pySlice`, Python truthiness of `os.getenv` results is `pyTruthy`, and the
Python `x or y` idiom on an optional list is `pyOr`.
-/

namespace FreeDAIY

/-- Value stored in a document field: the payloads built by `model_dump` hold
strings, `None`, or lists of strings. -/
inductive DocVal where
  | null : DocVal
  | str : String → DocVal
  | strList : List String → DocVal
deriving DecidableEq, Repr

/-- A document handed to the storage adapter: ordered field/value pairs, the
shape of a Python dict produced by `model_dump()`. -/
abbrev Document := List (String × DocVal)

/-- A storage adapter's `create_document`: returns the inserted id, or raises
(`Except.error` carries `str(e)` of the exception). -/
abbrev Store := String → Document → Except String String

/-- Fallback `create_document` (main.py lines 12-13): always succeeds with the
constant placeholder id `"mock-id"`. -/
def create_document (collection_name : String) (data : Document) : Except String String :=
  Except.ok "mock-id"

/-- The fallback adapter packaged as a `Store`. -/
def fallback_store : Store := fun collection_name data => create_document collection_name data

/-- A store whose write always raises an exception with message `m`; used to
exercise the persistence-failure paths. -/
def raisingStore (m : String) : Store := fun _ _ => Except.error m

/-- Python truthiness of an `os.getenv` result: `None` and the empty string are
falsy, any other string is truthy. -/
def pyTruthy : Option String → Bool
  | none => false
  | some s => !s.isEmpty

/-- Python string slice `s[:n]`: the first `n` characters (code points). -/
def pySlice (s : String) (n : Nat) : String := String.mk (s.data.take n)

/-- The two environment variables read by the diagnostics endpoint
(`DATABASE_URL`, `DATABASE_NAME`); `none` means unset. -/
structure Env where
  DATABASE_URL : Option String
  DATABASE_NAME : Option String
deriving DecidableEq, Repr

/-- Condition of the backing store as observed by `test_database`:
the in-handler `from database import db` raises (carrying `str(e)`), imports
but `db` is `None`, `db.list_collection_names()` raises (carrying `str(e)`),
or the listing succeeds with the given collection names. -/
inductive StoreCondition where
  | importFails : String → StoreCondition
  | dbNone : StoreCondition
  | listFails : String → StoreCondition
  | healthy : List String → StoreCondition

/-- The JSON object returned by GET /test (main.py lines 37-44). -/
structure StatusReport where
  backend : String
  database : String
  database_url : String
  database_name : String
  connection_status : String
  collections : List String
deriving DecidableEq, Repr

/-- GET /test (main.py lines 35-63).  Every store interaction sits inside a
try/except, so the handler is a total function of the store condition and the
environment: mutation of the initial `response` dict is threaded explicitly. -/
def test_database (cond : StoreCondition) (env : Env) : StatusReport :=
  let database : String :=
    match cond with
    | StoreCondition.importFails e => "❌ Error: " ++ pySlice e 60
    | StoreCondition.dbNone => "⚠️ Available but not initialized"
    | StoreCondition.listFails e => "⚠️ Connected but Error: " ++ pySlice e 60
    | StoreCondition.healthy _ => "✅ Connected & Working"
  let connection_status : String :=
    match cond with
    | StoreCondition.healthy _ => "Connected"
    | _ => "Not Connected"
  let collections : List String :=
    match cond with
    | StoreCondition.healthy names => names.take 10
    | _ => []
  { backend := "✅ Running"
    database := database
    database_url := if pyTruthy env.DATABASE_URL then "✅ Set" else "❌ Not Set"
    database_name := if pyTruthy env.DATABASE_NAME then "✅ Set" else "❌ Not Set"
    connection_status := connection_status
    collections := collections }

/-- Raw body of a POST /leads request, before pydantic validation. -/
structure LeadInput where
  name : String
  email : String
  company : Option String
  current_tools : Option String
  message : Option String
deriving DecidableEq, Repr

/-- Validated `LeadCreate` model (main.py lines 67-72). -/
structure LeadCreate where
  name : String
  email : String
  company : Option String
  current_tools : Option String
  message : Option String
deriving DecidableEq, Repr

/-- A pydantic validation error: offending field and violated constraint.
FastAPI turns it into an HTTP 422 before the handler body runs. -/
structure FieldError where
  field : String
  constraint : String
deriving DecidableEq, Repr

/-- Pydantic validation of `LeadCreate` (main.py line 68: `name` has
`min_length=2, max_length=120`; line 69: the email field is an `EmailStr`,
whose syntax check is the parameter `emailOk`).  The remaining fields are
unvalidated optional text. -/
def validate_lead (emailOk : String → Bool) (i : LeadInput) : Except FieldError LeadCreate :=
  if i.name.length < 2 then Except.error ⟨"name", "string_too_short"⟩
  else if 120 < i.name.length then Except.error ⟨"name", "string_too_long"⟩
  else if emailOk i.email = false then Except.error ⟨"email", "value_error"⟩
  else Except.ok ⟨i.name, i.email, i.company, i.current_tools, i.message⟩

/-- Dump of an optional-string field: Python `None` becomes JSON null. -/
def optVal : Option String → DocVal
  | none => DocVal.null
  | some s => DocVal.str s

/-- Python `payload.model_dump()` for a `LeadCreate` (main.py line 121): all
five declared fields, in declaration order, optionals dumped as null. -/
def LeadCreate.model_dump (p : LeadCreate) : Document :=
  [("name", DocVal.str p.name), ("email", DocVal.str p.email),
   ("company", optVal p.company), ("current_tools", optVal p.current_tools),
   ("message", optVal p.message)]

/-- Response model of POST /leads (main.py lines 75-79): exactly the four
fields id, name, email, company. -/
structure LeadResponse where
  id : String
  name : String
  email : String
  company : Option String
deriving DecidableEq, Repr

/-- Outcome of POST /leads: 422 from pydantic, 500 with a detail string from
the except branch, or 200 with a `LeadResponse`. -/
inductive LeadResult where
  | unprocessable : FieldError → LeadResult
  | serverError : String → LeadResult
  | ok : LeadResponse → LeadResult
deriving DecidableEq, Repr

/-- POST /leads (main.py lines 118-130), with pydantic validation made
explicit.  The second component logs every `create_document` call issued
(collection name and document), in order. -/
def create_lead (emailOk : String → Bool) (store : Store) (input : LeadInput) :
    LeadResult × List (String × Document) :=
  match validate_lead emailOk input with
  | Except.error e => (LeadResult.unprocessable e, [])
  | Except.ok payload =>
    let doc := payload.model_dump
    match store "lead" doc with
    | Except.ok inserted_id =>
        (LeadResult.ok ⟨inserted_id, payload.name, payload.email, payload.company⟩,
         [("lead", doc)])
    | Except.error e =>
        (LeadResult.serverError ("Failed to save lead: " ++ e), [("lead", doc)])

/-- State of one JSON field in a request body: absent, explicit null, or a
value. -/
inductive FieldState (α : Type) where
  | absent : FieldState α
  | null : FieldState α
  | value : α → FieldState α
deriving DecidableEq, Repr

/-- Raw body of a POST /subscribe request. -/
structure SubscribeInput where
  email : String
  interests : FieldState (List String)
deriving DecidableEq, Repr

/-- Validated `SubscribeCreate` model (main.py lines 82-84):
the interests field is declared `Optional[List[str]]` with
`default_factory=list`, so the validated field holds `None` or a list. -/
structure SubscribeCreate where
  email : String
  interests : Option (List String)
deriving DecidableEq, Repr

/-- Pydantic's handling of the `interests` field: absent applies the
`default_factory=list` default, explicit null is kept as `None` (the type is
`Optional`), a list is kept as-is. -/
def parse_interests : FieldState (List String) → Option (List String)
  | FieldState.absent => some []
  | FieldState.null => none
  | FieldState.value l => some l

/-- Pydantic validation of `SubscribeCreate` (main.py lines 82-84). -/
def validate_subscribe (emailOk : String → Bool) (i : SubscribeInput) :
    Except FieldError SubscribeCreate :=
  if emailOk i.email = false then Except.error ⟨"email", "value_error"⟩
  else Except.ok ⟨i.email, parse_interests i.interests⟩

/-- Python `payload.model_dump()` for a `SubscribeCreate` (main.py line 136). -/
def SubscribeCreate.model_dump (p : SubscribeCreate) : Document :=
  [("email", DocVal.str p.email),
   ("interests", match p.interests with
     | none => DocVal.null
     | some l => DocVal.strList l)]

/-- Python `x or dflt` on an optional list: `None` and the empty list are
falsy. -/
def pyOr (x : Option (List String)) (dflt : List String) : List String :=
  match x with
  | none => dflt
  | some l => if l.isEmpty then dflt else l

/-- Response model of POST /subscribe (main.py lines 87-90). -/
structure SubscribeResponse where
  id : String
  email : String
  interests : List String
deriving DecidableEq, Repr

/-- Outcome of POST /subscribe. -/
inductive SubscribeResult where
  | unprocessable : FieldError → SubscribeResult
  | serverError : String → SubscribeResult
  | ok : SubscribeResponse → SubscribeResult
deriving DecidableEq, Repr

/-- POST /subscribe (main.py lines 133-144), with the same instrumentation as
`create_lead`. -/
def subscribe (emailOk : String → Bool) (store : Store) (input : SubscribeInput) :
    SubscribeResult × List (String × Document) :=
  match validate_subscribe emailOk input with
  | Except.error e => (SubscribeResult.unprocessable e, [])
  | Except.ok payload =>
    let doc := payload.model_dump
    match store "subscriber" doc with
    | Except.ok inserted_id =>
        (SubscribeResult.ok ⟨inserted_id, payload.email, pyOr payload.interests []⟩,
         [("subscriber", doc)])
    | Except.error e =>
        (SubscribeResult.serverError ("Failed to subscribe: " ++ e), [("subscriber", doc)])

/-- Catalog entry served by GET /posts (main.py lines 93-98). -/
structure Post where
  id : String
  title : String
  category : String
  preview : String
  reading_time : String
deriving DecidableEq, Repr

/-- Catalog entry served by GET /products (main.py lines 101-106). -/
structure Product where
  id : String
  title : String
  description : String
  tag : String
  level : String
deriving DecidableEq, Repr

/-- Catalog entry served by GET /resources (main.py lines 109-114). -/
structure Resource where
  id : String
  title : String
  kind : String
  blurb : String
  tags : List String
deriving DecidableEq, Repr

/-- GET /posts (main.py lines 147-171): a constant literal list. -/
def list_posts : List Post :=
  [{ id := "post-ai-productivity"
     title := "Designing calm, hands-free AI flows"
     category := "AI Productivity"
     preview := "Principles to build voice-first workflows that reduce clicks and context switching."
     reading_time := "6 min" },
   { id := "post-n8n-make"
     title := "Nailing robust automations with n8n + Make.com"
     category := "Automations"
     preview := "Patterns for reliability, retries, and observability in production workflows."
     reading_time := "7 min" },
   { id := "post-self-hosted-ai"
     title := "Private AI: self-hosting strategies"
     category := "Self-Hosted AI"
     preview := "From LLM gateways to vector stores — what to run and where."
     reading_time := "8 min" }]

/-- GET /products (main.py lines 174-198): a constant literal list. -/
def list_products : List Product :=
  [{ id := "n8n-crm-sync"
     title := "CRM Sync: Leads → Deals n8n workflow"
     description := "Auto-creates deals from form leads with enrich + dedupe."
     tag := "CRM"
     level := "Intermediate" },
   { id := "ops-daily-digest"
     title := "Ops Daily Digest"
     description := "Slack summary of KPIs, incidents, and tasks across tools."
     tag := "Operations"
     level := "Beginner" },
   { id := "marketing-utm-cleaner"
     title := "UTM Cleaner + Attribution"
     description := "Normalize UTM params and attribute signups across sessions."
     tag := "Marketing"
     level := "Advanced" }]

/-- GET /resources (main.py lines 201-225): a constant literal list. -/
def list_resources : List Resource :=
  [{ id := "wf-n8n-intro"
     title := "n8n Starter Pack"
     kind := "Workflow"
     blurb := "Five plug-and-play flows to kickstart automation."
     tags := ["Workflow", "n8n", "Starter"] },
   { id := "inf-voice-design"
     title := "Voice UX Principles"
     kind := "Infographic"
     blurb := "Design patterns for voice-first productivity."
     tags := ["Infographic", "Voice", "UX"] },
   { id := "tpl-checklist"
     title := "Automation Readiness Checklist"
     kind := "Template"
     blurb := "Assess your stack before you automate."
     tags := ["Template", "Readiness"] }]

/-- The catalog handlers read no store or environment state; serving a GET
/posts request while the app's store and environment are in any condition
returns the constant list. -/
def serve_posts (cond : StoreCondition) (env : Env) : List Post := list_posts

/-- Serving GET /products under any store condition and environment. -/
def serve_products (cond : StoreCondition) (env : Env) : List Product := list_products

/-- Serving GET /resources under any store condition and environment. -/
def serve_resources (cond : StoreCondition) (env : Env) : List Resource := list_resources

/-- Extracts the 500 detail string from a lead result, when there is one. -/
def errorDetail : LeadResult → Option String
  | LeadResult.serverError d => some d
  | _ => none

/-- Extracts the 500 detail string from a subscribe result, when there is one. -/
def subErrorDetail : SubscribeResult → Option String
  | SubscribeResult.serverError d => some d
  | _ => none

/-- The concrete POST /leads body of the spec scenario. -/
def alInput : LeadInput := ⟨"Al", "a@b.com", none, none, none⟩

/-- Membership in the absent tier: store resolution failed. -/
def inAbsentTier (r : StatusReport) : Prop := ∃ m, r.database = "❌ Error: " ++ m

/-- Membership in the present-but-erroring tier: store resolved, listing
raised. -/
def inErroringTier (r : StatusReport) : Prop :=
  ∃ m, r.database = "⚠️ Connected but Error: " ++ m

/-- Membership in the fully-connected tier. -/
def inConnectedTier (r : StatusReport) : Prop := r.database = "✅ Connected & Working"

/-! Characterization lemmas for the two ingestion endpoints: one equation per
(validation outcome × store outcome) branch. -/

lemma create_lead_validation_error (emailOk : String → Bool) (store : Store) (i : LeadInput)
    (e : FieldError) (hv : validate_lead emailOk i = Except.error e) :
    create_lead emailOk store i = (LeadResult.unprocessable e, []) := by
  unfold create_lead
  rw [hv]

lemma create_lead_ok (emailOk : String → Bool) (store : Store) (i : LeadInput)
    (p : LeadCreate) (id : String) (hv : validate_lead emailOk i = Except.ok p)
    (hs : store "lead" p.model_dump = Except.ok id) :
    create_lead emailOk store i =
      (LeadResult.ok ⟨id, p.name, p.email, p.company⟩, [("lead", p.model_dump)]) := by
  unfold create_lead
  rw [hv]
  show (match store "lead" p.model_dump with
    | Except.ok inserted_id =>
        (LeadResult.ok ⟨inserted_id, p.name, p.email, p.company⟩, [("lead", p.model_dump)])
    | Except.error e =>
        (LeadResult.serverError ("Failed to save lead: " ++ e), [("lead", p.model_dump)])) = _
  rw [hs]

lemma create_lead_store_error (emailOk : String → Bool) (store : Store) (i : LeadInput)
    (p : LeadCreate) (m : String) (hv : validate_lead emailOk i = Except.ok p)
    (hs : store "lead" p.model_dump = Except.error m) :
    create_lead emailOk store i =
      (LeadResult.serverError ("Failed to save lead: " ++ m), [("lead", p.model_dump)]) := by
  unfold create_lead
  rw [hv]
  show (match store "lead" p.model_dump with
    | Except.ok inserted_id =>
        (LeadResult.ok ⟨inserted_id, p.name, p.email, p.company⟩, [("lead", p.model_dump)])
    | Except.error e =>
        (LeadResult.serverError ("Failed to save lead: " ++ e), [("lead", p.model_dump)])) = _
  rw [hs]

lemma subscribe_validation_error (emailOk : String → Bool) (store : Store) (i : SubscribeInput)
    (e : FieldError) (hv : validate_subscribe emailOk i = Except.error e) :
    subscribe emailOk store i = (SubscribeResult.unprocessable e, []) := by
  unfold subscribe
  rw [hv]

lemma subscribe_ok (emailOk : String → Bool) (store : Store) (i : SubscribeInput)
    (p : SubscribeCreate) (id : String) (hv : validate_subscribe emailOk i = Except.ok p)
    (hs : store "subscriber" p.model_dump = Except.ok id) :
    subscribe emailOk store i =
      (SubscribeResult.ok ⟨id, p.email, pyOr p.interests []⟩, [("subscriber", p.model_dump)]) := by
  unfold subscribe
  rw [hv]
  show (match store "subscriber" p.model_dump with
    | Except.ok inserted_id =>
        (SubscribeResult.ok ⟨inserted_id, p.email, pyOr p.interests []⟩,
         [("subscriber", p.model_dump)])
    | Except.error e =>
        (SubscribeResult.serverError ("Failed to subscribe: " ++ e),
         [("subscriber", p.model_dump)])) = _
  rw [hs]

lemma subscribe_store_error (emailOk : String → Bool) (store : Store) (i : SubscribeInput)
    (p : SubscribeCreate) (m : String) (hv : validate_subscribe emailOk i = Except.ok p)
    (hs : store "subscriber" p.model_dump = Except.error m) :
    subscribe emailOk store i =
      (SubscribeResult.serverError ("Failed to subscribe: " ++ m),
       [("subscriber", p.model_dump)]) := by
  unfold subscribe
  rw [hv]
  show (match store "subscriber" p.model_dump with
    | Except.ok inserted_id =>
        (SubscribeResult.ok ⟨inserted_id, p.email, pyOr p.interests []⟩,
         [("subscriber", p.model_dump)])
    | Except.error e =>
        (SubscribeResult.serverError ("Failed to subscribe: " ++ e),
         [("subscriber", p.model_dump)])) = _
  rw [hs]

/-- Successful lead validation pins down the payload and the field constraints. -/
lemma validate_lead_ok (emailOk : String → Bool) (i : LeadInput) (p : LeadCreate)
    (hv : validate_lead emailOk i = Except.ok p) :
    p = ⟨i.name, i.email, i.company, i.current_tools, i.message⟩ ∧
    2 ≤ i.name.length ∧ i.name.length ≤ 120 ∧ emailOk i.email = true := by
  unfold validate_lead at hv
  split_ifs at hv with h1 h2 h3
  injection hv with h4
  refine ⟨h4.symm, by omega, by omega, ?_⟩
  cases hb : emailOk i.email with
  | false => exact absurd hb h3
  | true => rfl

/-- Successful subscribe validation pins down the payload. -/
lemma validate_subscribe_ok (emailOk : String → Bool) (i : SubscribeInput) (p : SubscribeCreate)
    (hv : validate_subscribe emailOk i = Except.ok p) :
    p = ⟨i.email, parse_interests i.interests⟩ ∧ emailOk i.email = true := by
  unfold validate_subscribe at hv
  split_ifs at hv with h1
  injection hv with h2
  refine ⟨h2.symm, ?_⟩
  cases hb : emailOk i.email with
  | false => exact absurd hb h1
  | true => rfl

/-- C3: for every Lead input whose name length is below 2 or above 120, or
whose email is syntactically invalid, POST /leads is rejected with a
validation failure (HTTP 422, `LeadResult.unprocessable`) before any
persistence attempt, and `create_document` is never invoked: the log of store
calls is empty.  This holds for every store and every email validator. -/
theorem C3_invalid_lead_rejected_before_persistence (emailOk : String → Bool) (store : Store)
    (i : LeadInput)
    (h : i.name.length < 2 ∨ 120 < i.name.length ∨ emailOk i.email = false) :
    (∃ e, (create_lead emailOk store i).1 = LeadResult.unprocessable e) ∧
    (create_lead emailOk store i).2 = [] := by
  have hv : ∃ e, validate_lead emailOk i = Except.error e := by
    unfold validate_lead
    split_ifs with h1 h2 h3
    · exact ⟨_, rfl⟩
    · exact ⟨_, rfl⟩
    · exact ⟨_, rfl⟩
    · rcases h with h | h | h
      · exact absurd h h1
      · exact absurd h h2
      · exact absurd h h3
  obtain ⟨e, he⟩ := hv
  rw [create_lead_validation_error emailOk store i e he]
  exact ⟨⟨e, rfl⟩, rfl⟩

/-- Witness for C3 at the concrete input name := "A" (length 1). -/
theorem C3_witness :
    (∃ e, (create_lead (fun _ => true) fallback_store ⟨"A", "a@b.com", none, none, none⟩).1 =
      LeadResult.unprocessable e) ∧
    (create_lead (fun _ => true) fallback_store ⟨"A", "a@b.com", none, none, none⟩).2 = [] :=
  C3_invalid_lead_rejected_before_persistence (fun _ => true) fallback_store
    ⟨"A", "a@b.com", none, none, none⟩ (Or.inl (by decide))

/-- C4: for every valid Lead input (one that passes pydantic validation), with
the fallback adapter active, POST /leads succeeds and returns the placeholder
identifier "mock-id" — the same non-empty constant for every input — echoing
exactly the submitted name, email and company. -/
theorem C4_fallback_lead_constant_id (emailOk : String → Bool) (i : LeadInput)
    (p : LeadCreate) (hv : validate_lead emailOk i = Except.ok p) :
    (create_lead emailOk fallback_store i).1 =
      LeadResult.ok ⟨"mock-id", i.name, i.email, i.company⟩ ∧ ("mock-id" : String) ≠ "" := by
  obtain ⟨hp, -, -, -⟩ := validate_lead_ok emailOk i p hv
  subst hp
  constructor
  · rw [create_lead_ok emailOk fallback_store i _ "mock-id" hv rfl]
  · decide

/-- Witness for C4 at the concrete valid input of the spec scenario. -/
theorem C4_witness :
    (create_lead (fun _ => true) fallback_store alInput).1 =
      LeadResult.ok ⟨"mock-id", "Al", "a@b.com", none⟩ ∧ ("mock-id" : String) ≠ "" :=
  C4_fallback_lead_constant_id (fun _ => true) alInput
    ⟨"Al", "a@b.com", none, none, none⟩ rfl

/-- C5: in the concrete scenario where POST /leads receives
name := "Al", email := "a@b.com" and the fallback adapter is active, the
response is a 200 with id "mock-id", the echoed name and email, and a null
company (and the one store call carries the dumped document).  Stated for
every email validator that accepts "a@b.com", as the real pydantic EmailStr
does. -/
theorem C5_concrete_lead_scenario (emailOk : String → Bool) (h : emailOk "a@b.com" = true) :
    create_lead emailOk fallback_store alInput =
      (LeadResult.ok ⟨"mock-id", "Al", "a@b.com", none⟩,
       [("lead", [("name", DocVal.str "Al"), ("email", DocVal.str "a@b.com"),
                  ("company", DocVal.null), ("current_tools", DocVal.null),
                  ("message", DocVal.null)])]) := by
  have hv : validate_lead emailOk alInput = Except.ok ⟨"Al", "a@b.com", none, none, none⟩ := by
    simp +decide [validate_lead, alInput, h]
  rw [create_lead_ok emailOk fallback_store alInput _ "mock-id" hv rfl]
  rfl

/-- Witness for C5 with an email validator that accepts everything. -/
theorem C5_witness :
    create_lead (fun _ => true) fallback_store alInput =
      (LeadResult.ok ⟨"mock-id", "Al", "a@b.com", none⟩,
       [("lead", [("name", DocVal.str "Al"), ("email", DocVal.str "a@b.com"),
                  ("company", DocVal.null), ("current_tools", DocVal.null),
                  ("message", DocVal.null)])]) :=
  C5_concrete_lead_scenario (fun _ => true) rfl

/-- C7: GET /posts, GET /products and GET /resources each return the same
fixed three-element sequence on every call, whatever the store condition and
environment; the elements and their order are those of the constant lists. -/
theorem C7_catalog_constant :
    (∀ (c c' : StoreCondition) (e e' : Env),
      serve_posts c e = serve_posts c' e' ∧
      serve_products c e = serve_products c' e' ∧
      serve_resources c e = serve_resources c' e') ∧
    (∀ (c : StoreCondition) (e : Env),
      serve_posts c e = list_posts ∧ serve_products c e = list_products ∧
      serve_resources c e = list_resources) ∧
    list_posts.length = 3 ∧ list_products.length = 3 ∧ list_resources.length = 3 :=
  ⟨fun _ _ _ _ => ⟨rfl, rfl, rfl⟩, fun _ _ => ⟨rfl, rfl, rfl⟩, rfl, rfl, rfl⟩

/-- C10: for every accepted lead submission, the document handed to
`create_document` is exactly the five fields name, email, company,
current_tools, message with the submitted values (absent optionals as null),
and the 200 receipt is determined by id, name, email and company alone
(current_tools and message do not appear in `LeadResponse`). -/
theorem C10_lead_doc_and_receipt_shape (emailOk : String → Bool) (store : Store)
    (i : LeadInput) (p : LeadCreate) (hv : validate_lead emailOk i = Except.ok p) :
    (create_lead emailOk store i).2 =
      [("lead", [("name", DocVal.str i.name), ("email", DocVal.str i.email),
                 ("company", optVal i.company), ("current_tools", optVal i.current_tools),
                 ("message", optVal i.message)])] ∧
    ∀ r, (create_lead emailOk store i).1 = LeadResult.ok r →
      r = ⟨r.id, i.name, i.email, i.company⟩ := by
  obtain ⟨hp, -, -, -⟩ := validate_lead_ok emailOk i p hv
  subst hp
  cases hs : store "lead" (LeadCreate.model_dump ⟨i.name, i.email, i.company, i.current_tools, i.message⟩) with
  | ok id =>
    rw [create_lead_ok emailOk store i _ id hv hs]
    refine ⟨rfl, ?_⟩
    intro r hr
    injection hr with h2
    rw [← h2]
  | error m =>
    rw [create_lead_store_error emailOk store i _ m hv hs]
    refine ⟨rfl, ?_⟩
    intro r hr
    exact LeadResult.noConfusion hr

/-- Witness for C10 at the concrete scenario input against the fallback
store. -/
theorem C10_witness :
    (create_lead (fun _ => true) fallback_store alInput).2 =
      [("lead", [("name", DocVal.str "Al"), ("email", DocVal.str "a@b.com"),
                 ("company", DocVal.null), ("current_tools", DocVal.null),
                 ("message", DocVal.null)])] ∧
    ∀ r, (create_lead (fun _ => true) fallback_store alInput).1 = LeadResult.ok r →
      r = ⟨r.id, "Al", "a@b.com", none⟩ :=
  C10_lead_doc_and_receipt_shape (fun _ => true) fallback_store alInput
    ⟨"Al", "a@b.com", none, none, none⟩ rfl

/-- C6: for every valid Subscriber input whose interests field is absent, any
success response carries the empty interests sequence (the
`default_factory=list` default is applied), never null. -/
theorem C6_absent_interests_default (emailOk : String → Bool) (store : Store) (email : String)
    (h : emailOk email = true) :
    ∀ r, (subscribe emailOk store ⟨email, FieldState.absent⟩).1 = SubscribeResult.ok r →
      r.interests = [] := by
  have hv : validate_subscribe emailOk ⟨email, FieldState.absent⟩ =
      Except.ok ⟨email, some []⟩ := by
    simp [validate_subscribe, h, parse_interests]
  intro r hr
  cases hs : store "subscriber" (SubscribeCreate.model_dump ⟨email, some []⟩) with
  | ok id =>
    rw [subscribe_ok emailOk store _ _ id hv hs] at hr
    injection hr with h2
    rw [← h2]
    rfl
  | error m =>
    rw [subscribe_store_error emailOk store _ _ m hv hs] at hr
    exact SubscribeResult.noConfusion hr

/-- Witness for C6: the concrete spec scenario against the fallback store. -/
theorem C6_witness :
    (subscribe (fun _ => true) fallback_store ⟨"x@y.com", FieldState.absent⟩).1 =
      SubscribeResult.ok ⟨"mock-id", "x@y.com", []⟩ ∧
    (⟨"mock-id", "x@y.com", ([] : List String)⟩ : SubscribeResponse).interests = [] :=
  ⟨rfl, C6_absent_interests_default (fun _ => true) fallback_store "x@y.com" rfl
    ⟨"mock-id", "x@y.com", []⟩ rfl⟩

/-- C9: for every subscription whose interests field is the explicit null, the
document handed to `create_document` carries interests as null, while any
success response carries the empty interests sequence (via the Python
`payload.interests or []` idiom). -/
theorem C9_null_interests_doc_vs_response (emailOk : String → Bool) (store : Store)
    (email : String) (h : emailOk email = true) :
    (subscribe emailOk store ⟨email, FieldState.null⟩).2 =
      [("subscriber", [("email", DocVal.str email), ("interests", DocVal.null)])] ∧
    ∀ r, (subscribe emailOk store ⟨email, FieldState.null⟩).1 = SubscribeResult.ok r →
      r.interests = [] := by
  have hv : validate_subscribe emailOk ⟨email, FieldState.null⟩ = Except.ok ⟨email, none⟩ := by
    simp [validate_subscribe, h, parse_interests]
  cases hs : store "subscriber" (SubscribeCreate.model_dump ⟨email, none⟩) with
  | ok id =>
    rw [subscribe_ok emailOk store _ _ id hv hs]
    refine ⟨rfl, ?_⟩
    intro r hr
    injection hr with h2
    rw [← h2]
    rfl
  | error m =>
    rw [subscribe_store_error emailOk store _ _ m hv hs]
    refine ⟨rfl, ?_⟩
    intro r hr
    exact SubscribeResult.noConfusion hr

/-- Witness for C9 against the fallback store. -/
theorem C9_witness :
    (subscribe (fun _ => true) fallback_store ⟨"x@y.com", FieldState.null⟩).2 =
      [("subscriber", [("email", DocVal.str "x@y.com"), ("interests", DocVal.null)])] ∧
    (⟨"mock-id", "x@y.com", ([] : List String)⟩ : SubscribeResponse).interests = [] :=
  ⟨(C9_null_interests_doc_vs_response (fun _ => true) fallback_store "x@y.com" rfl).1,
   (C9_null_interests_doc_vs_response (fun _ => true) fallback_store "x@y.com" rfl).2
     ⟨"mock-id", "x@y.com", []⟩ rfl⟩

/-- Equal strings cannot have differing first characters. -/
lemma head_char_clash {s t : String} (h : s = t) (c d : Char) (hs : s.data.head? = some c)
    (ht : t.data.head? = some d) (hcd : c ≠ d) : False :=
  hcd (Option.some.inj ((hs.symm.trans (congrArg (fun u => u.data.head?) h)).trans ht))

/-- C2: for each of the three store conditions — module unresolvable, store
resolvable but listing raises, fully healthy — GET /test returns a report (the
handler is a total function: every store interaction is inside try/except, so
no exception propagates) whose status falls in exactly one of the three tiers
absent / present-but-erroring / fully-connected. -/
theorem C2_diagnostics_three_tiers (env : Env) :
    (∀ m, inAbsentTier (test_database (StoreCondition.importFails m) env) ∧
      ¬ inErroringTier (test_database (StoreCondition.importFails m) env) ∧
      ¬ inConnectedTier (test_database (StoreCondition.importFails m) env)) ∧
    (∀ m, ¬ inAbsentTier (test_database (StoreCondition.listFails m) env) ∧
      inErroringTier (test_database (StoreCondition.listFails m) env) ∧
      ¬ inConnectedTier (test_database (StoreCondition.listFails m) env)) ∧
    (∀ names, ¬ inAbsentTier (test_database (StoreCondition.healthy names) env) ∧
      ¬ inErroringTier (test_database (StoreCondition.healthy names) env) ∧
      inConnectedTier (test_database (StoreCondition.healthy names) env)) := by
  refine ⟨fun m => ⟨⟨pySlice m 60, rfl⟩, ?_, ?_⟩,
    fun m => ⟨?_, ⟨pySlice m 60, rfl⟩, ?_⟩,
    fun names => ⟨?_, ?_, rfl⟩⟩
  · rintro ⟨m', hm⟩
    exact head_char_clash hm '❌' '⚠' rfl rfl (by decide)
  · intro hm
    exact head_char_clash hm '❌' '✅' rfl rfl (by decide)
  · rintro ⟨m', hm⟩
    exact head_char_clash hm '⚠' '❌' rfl rfl (by decide)
  · intro hm
    exact head_char_clash hm '⚠' '✅' rfl rfl (by decide)
  · rintro ⟨m', hm⟩
    exact head_char_clash hm '✅' '❌' rfl rfl (by decide)
  · rintro ⟨m', hm⟩
    exact head_char_clash hm '✅' '⚠' rfl rfl (by decide)

/-- Witness for C2 at a concrete environment and concrete exception messages:
each of the three conditions lands in its own tier and not in the
fully-connected tier unless healthy. -/
theorem C2_witness :
    inAbsentTier (test_database (StoreCondition.importFails "boom") ⟨none, none⟩) ∧
    ¬ inConnectedTier (test_database (StoreCondition.importFails "boom") ⟨none, none⟩) ∧
    inErroringTier (test_database (StoreCondition.listFails "timeout") ⟨none, none⟩) ∧
    inConnectedTier (test_database (StoreCondition.healthy ["lead"]) ⟨none, none⟩) :=
  ⟨((C2_diagnostics_three_tiers ⟨none, none⟩).1 "boom").1,
   ((C2_diagnostics_three_tiers ⟨none, none⟩).1 "boom").2.2,
   ((C2_diagnostics_three_tiers ⟨none, none⟩).2.1 "timeout").2.1,
   ((C2_diagnostics_three_tiers ⟨none, none⟩).2.2 ["lead"]).2.2⟩

/-- The Python slice `s[:n]` has length at most `n`. -/
lemma pySlice_length_le (s : String) (n : Nat) : (pySlice s n).length ≤ n := by
  show (s.data.take n).length ≤ n
  rw [List.length_take]
  omega

/-- C1 counterexample: there is no bound on the length of the 500 detail
returned by POST /leads when the persistence call raises — the detail embeds
the full exception message, so for any candidate bound an exception message of
that length plus one exceeds it.  (The claim, as stated, asserts such a bound
exists.) -/
theorem C1_counterexample :
    ¬ ∃ B : Nat, ∀ (m d : String),
      errorDetail (create_lead (fun _ => true) (raisingStore m) alInput).1 = some d →
      d.length ≤ B := by
  rintro ⟨B, h⟩
  have hd := h (String.mk (List.replicate (B + 1) 'a'))
      ("Failed to save lead: " ++ String.mk (List.replicate (B + 1) 'a')) rfl
  rw [String.length_append] at hd
  have h21 : ("Failed to save lead: " : String).length = 21 := by decide
  have hrep : (String.mk (List.replicate (B + 1) 'a')).length = B + 1 := by
    show (List.replicate (B + 1) 'a').length = B + 1
    simp
  omega

/-- C1 amended: only the diagnostics endpoint truncates error causes (to 60
characters, so its database field never exceeds 84 characters); the 500
details of POST /leads and POST /subscribe carry the full, untruncated
exception message after a 21-character constant, so their length grows
without bound with the exception message. -/
theorem C1_amended_truncation :
    (∀ (emailOk : String → Bool) (i : LeadInput) (p : LeadCreate) (m : String),
      validate_lead emailOk i = Except.ok p →
      (create_lead emailOk (raisingStore m) i).1 =
        LeadResult.serverError ("Failed to save lead: " ++ m) ∧
      ("Failed to save lead: " ++ m).length = 21 + m.length) ∧
    (∀ (emailOk : String → Bool) (i : SubscribeInput) (p : SubscribeCreate) (m : String),
      validate_subscribe emailOk i = Except.ok p →
      (subscribe emailOk (raisingStore m) i).1 =
        SubscribeResult.serverError ("Failed to subscribe: " ++ m) ∧
      ("Failed to subscribe: " ++ m).length = 21 + m.length) ∧
    (∀ (cond : StoreCondition) (env : Env), (test_database cond env).database.length ≤ 84) := by
  refine ⟨?_, ?_, ?_⟩
  · intro emailOk i p m hv
    constructor
    · rw [create_lead_store_error emailOk (raisingStore m) i p m hv rfl]
    · have h21 : ("Failed to save lead: " : String).length = 21 := by decide
      rw [String.length_append, h21]
  · intro emailOk i p m hv
    constructor
    · rw [subscribe_store_error emailOk (raisingStore m) i p m hv rfl]
    · have h21 : ("Failed to subscribe: " : String).length = 21 := by decide
      rw [String.length_append, h21]
  · intro cond env
    cases cond with
    | importFails e =>
      show ("❌ Error: " ++ pySlice e 60).length ≤ 84
      rw [String.length_append]
      have h9 : ("❌ Error: " : String).length = 9 := by decide
      have hs := pySlice_length_le e 60
      omega
    | dbNone =>
      show ("⚠️ Available but not initialized" : String).length ≤ 84
      decide
    | listFails e =>
      show ("⚠️ Connected but Error: " ++ pySlice e 60).length ≤ 84
      rw [String.length_append]
      have h24 : ("⚠️ Connected but Error: " : String).length = 24 := by decide
      have hs := pySlice_length_le e 60
      omega
    | healthy names =>
      show ("✅ Connected & Working" : String).length ≤ 84
      decide

/-- Witness for C1 amended, at the concrete scenario input with exception
message "boom". -/
theorem C1_amended_witness :
    (create_lead (fun _ => true) (raisingStore "boom") alInput).1 =
      LeadResult.serverError ("Failed to save lead: " ++ "boom") ∧
    ("Failed to save lead: " ++ "boom").length = 21 + ("boom" : String).length :=
  C1_amended_truncation.1 (fun _ => true) alInput ⟨"Al", "a@b.com", none, none, none⟩ "boom" rfl

/-- C8 counterexample: the presence flag does not depend solely on whether the
variable is set — `DATABASE_URL` set to the empty string and set to "x" are
both set, yet the reported flags differ ("❌ Not Set" versus "✅ Set"),
because the code tests Python truthiness of `os.getenv`, under which a set
empty string is falsy. -/
theorem C8_counterexample :
    ((⟨some "", none⟩ : Env).DATABASE_URL).isSome =
      ((⟨some "x", none⟩ : Env).DATABASE_URL).isSome ∧
    ((⟨some "", none⟩ : Env).DATABASE_NAME).isSome =
      ((⟨some "x", none⟩ : Env).DATABASE_NAME).isSome ∧
    (test_database (StoreCondition.importFails "boom") ⟨some "", none⟩).database_url ≠
      (test_database (StoreCondition.importFails "boom") ⟨some "x", none⟩).database_url := by
  refine ⟨rfl, rfl, ?_⟩
  show ("❌ Not Set" : String) ≠ "✅ Set"
  decide

/-- C8 amended: the two presence flags depend solely on whether each variable
is set to a non-empty string (Python truthiness), never otherwise on its
contents — any two environments agreeing on truthiness yield identical flags,
whatever the store condition; and with no environment configuration set and
the store module unresolvable, GET /test reports both flags "❌ Not Set" and
connection status "Not Connected" (and, being a total function, succeeds). -/
theorem C8_presence_flags :
    (∀ (c c' : StoreCondition) (e e' : Env),
      pyTruthy e.DATABASE_URL = pyTruthy e'.DATABASE_URL →
      pyTruthy e.DATABASE_NAME = pyTruthy e'.DATABASE_NAME →
      (test_database c e).database_url = (test_database c' e').database_url ∧
      (test_database c e).database_name = (test_database c' e').database_name) ∧
    ((test_database (StoreCondition.importFails "No module named database")
        ⟨none, none⟩).database_url = "❌ Not Set" ∧
     (test_database (StoreCondition.importFails "No module named database")
        ⟨none, none⟩).database_name = "❌ Not Set" ∧
     (test_database (StoreCondition.importFails "No module named database")
        ⟨none, none⟩).connection_status = "Not Connected") := by
  constructor
  · intro c c' e e' h1 h2
    constructor
    · show (if pyTruthy e.DATABASE_URL then "✅ Set" else "❌ Not Set") =
        (if pyTruthy e'.DATABASE_URL then "✅ Set" else "❌ Not Set")
      rw [h1]
    · show (if pyTruthy e.DATABASE_NAME then "✅ Set" else "❌ Not Set") =
        (if pyTruthy e'.DATABASE_NAME then "✅ Set" else "❌ Not Set")
      rw [h2]
  · exact ⟨rfl, rfl, rfl⟩

/-- Witness for C8 amended: two environments agreeing on truthiness — one
with `DATABASE_NAME` unset, the other with it set to the empty string — give
identical flags across different store conditions. -/
theorem C8_presence_flags_witness :
    (test_database StoreCondition.dbNone ⟨some "mongodb", none⟩).database_url =
      (test_database (StoreCondition.healthy []) ⟨some "postgres", some ""⟩).database_url ∧
    (test_database StoreCondition.dbNone ⟨some "mongodb", none⟩).database_name =
      (test_database (StoreCondition.healthy []) ⟨some "postgres", some ""⟩).database_name :=
  C8_presence_flags.1 StoreCondition.dbNone (StoreCondition.healthy [])
    ⟨some "mongodb", none⟩ ⟨some "postgres", some ""⟩ rfl rfl

end FreeDAIY
